import Mathlib

/-!
Verification of the generation-widget slice of randovania against its
specification.  The Python sources embedded here are
`randovania/gui/widgets/generate_game_widget.py` and
`randovania/layout/prime3/corruption_configuration.py`; collaborators that
the slice only calls (preset manager, permalink codec, configuration
validation, file saving) are modelled from the specification where noted.
-/

namespace Randovania

/-- A raw preset, the result of a successful `VersionedPreset.get_preset()`. -/
structure Preset where
  name : String
  description : String
  uuid : Nat
  base_preset_uuid : Option Nat
  deriving DecidableEq, Repr

/-- The `InvalidPreset` exception, carrying the original parse or validation
exception (`original_exception` in the Python source). -/
structure InvalidPreset where
  original_exception : String
  deriving DecidableEq, Repr

deriving instance DecidableEq for Except

/-- A `VersionedPreset`: identity data plus the outcome of `get_preset()`,
which either yields the wrapped raw preset or raises `InvalidPreset`. -/
structure VersionedPreset where
  uuid : Nat
  name : String
  base_preset_uuid : Option Nat
  data : Except InvalidPreset Preset
  deriving DecidableEq, Repr

/-- `VersionedPreset.get_preset()`. -/
def VersionedPreset.get_preset (p : VersionedPreset) : Except InvalidPreset Preset :=
  p.data

/-- `VersionedPreset.with_preset(raw)`: wraps a raw preset, taking identity
fields from it. -/
def VersionedPreset.with_preset (raw : Preset) : VersionedPreset :=
  { uuid := raw.uuid, name := raw.name, base_preset_uuid := raw.base_preset_uuid,
    data := Except.ok raw }

/-- `GeneratorParameters(seed_number=..., spoiler=..., presets=...)` as
constructed by the widget. -/
structure GeneratorParameters where
  seed_number : Nat
  spoiler : Bool
  presets : List Preset
  deriving DecidableEq, Repr

/-! ### generate_new_layout -/

/-- Python semantics of `random.randint(a, b)`: it returns an integer `n`
with `a ≤ n ≤ b`, BOTH endpoints included. -/
def randint_possible (a b n : Nat) : Prop := a ≤ n ∧ n ≤ b

instance (a b n : Nat) : Decidable (randint_possible a b n) :=
  inferInstanceAs (Decidable (_ ∧ _))

/-- The possible seed numbers drawn by `generate_new_layout`, which calls
`random.randint(0, 2 ** 31)`. -/
def generate_new_layout_seed_possible (n : Nat) : Prop :=
  randint_possible 0 (2 ^ 31) n

/-- The `GeneratorParameters` constructed by `generate_new_layout`:
`presets=[preset.get_preset()] * num_players` (Python list repetition). -/
def generate_new_layout_params (seed : Nat) (spoiler : Bool) (preset : Preset)
    (num_players : Nat) : GeneratorParameters :=
  { seed_number := seed, spoiler := spoiler,
    presets := List.replicate num_players preset }

/-- Modelled from the spec: the player-count spin box (whose minimum is set in
the generated UI file, not under src) only yields player counts of at least
one, matching the invariant "sequence length = number of players ≥ 1". -/
def num_players_spin_box_value_possible (n : Nat) : Prop := 1 ≤ n

instance (n : Nat) : Decidable (num_players_spin_box_value_possible n) :=
  inferInstanceAs (Decidable (1 ≤ n))

/-- A placeholder preset used for closed instances. -/
def preset0 : Preset :=
  { name := "Starter Preset", description := "Basic preset.", uuid := 7,
    base_preset_uuid := none }

/-! ### PresetMenu.set_preset -/

/-- The enabled/disabled state of the preset context-menu actions together
with the menu's stored preset. -/
structure PresetMenuState where
  action_delete_enabled : Bool
  action_history_enabled : Bool
  action_export_enabled : Bool
  action_customize_enabled : Bool
  action_duplicate_enabled : Bool
  action_map_tracker_enabled : Bool
  action_required_tricks_enabled : Bool
  preset : Option VersionedPreset
  deriving Repr

/-- The condition `preset is not None and preset.base_preset_uuid is not None`
used by `PresetMenu.set_preset` for delete/history/export. -/
def fork_actions_enabled (preset : Option VersionedPreset) : Bool :=
  match preset with
  | none => false
  | some p => p.base_preset_uuid.isSome

/-- The condition `preset is not None` used by `PresetMenu.set_preset` for
customize/duplicate/map-tracker/required-tricks. -/
def any_preset_actions_enabled (preset : Option VersionedPreset) : Bool :=
  preset.isSome

/-- `PresetMenu.set_preset`. -/
def set_preset (m : PresetMenuState) (preset : Option VersionedPreset) :
    PresetMenuState :=
  { m with
    preset := preset,
    action_delete_enabled := fork_actions_enabled preset,
    action_history_enabled := fork_actions_enabled preset,
    action_export_enabled := fork_actions_enabled preset,
    action_customize_enabled := any_preset_actions_enabled preset,
    action_duplicate_enabled := any_preset_actions_enabled preset,
    action_map_tracker_enabled := any_preset_actions_enabled preset,
    action_required_tricks_enabled := any_preset_actions_enabled preset }

/-! ### on_preset_changed -/

/-- The UI outcome of `GenerateGameWidget.on_preset_changed`: the enabled
state the loop at the end assigns to both generate buttons, plus the text set
on `create_preset_description`. -/
structure PresetChangedUi where
  create_generate_button_enabled : Bool
  create_generate_race_button_enabled : Bool
  create_preset_description : String
  deriving DecidableEq, Repr

/-- `GenerateGameWidget.on_preset_changed`.  `describe_preset` stands for the
external `preset_describer.merge_categories(preset_describer.describe(...))`
call, an opaque collaborator producing descriptive text. -/
def on_preset_changed (describe_preset : Preset → String)
    (preset : Option VersionedPreset) : PresetChangedUi :=
  match preset with
  | none =>
    { create_generate_button_enabled := false,
      create_generate_race_button_enabled := false,
      create_preset_description := "Please select a preset from the list." }
  | some p =>
    match p.data with
    | Except.ok raw =>
      { create_generate_button_enabled := true,
        create_generate_race_button_enabled := true,
        create_preset_description :=
          "<p style=\x27font-weight:600;\x27>" ++ raw.name ++ "</p><p>"
            ++ raw.description ++ "</p>" ++ describe_preset raw }
    | Except.error e =>
      { create_generate_button_enabled := false,
        create_generate_race_button_enabled := false,
        create_preset_description :=
          "Preset " ++ p.name ++ " can\x27t be used as it contains the following error:\n"
            ++ e.original_exception
            ++ "\n\nPlease open edit the preset file with id " ++ toString p.uuid
            ++ " manually or delete this preset." }

/-! ### generate_layout_from_permalink: the background work function -/

/-- A successful `LayoutDescription`: the fields the widget slice reads. -/
structure LayoutDescription where
  shareable_hash : String
  shareable_word_hash : String
  all_games_short_names : List String
  file_ext : String
  serialized : String
  deriving DecidableEq, Repr

/-- The `GenerationFailure` exception raised by the generator. -/
structure GenerationFailure where
  message : String
  deriving DecidableEq, Repr

/-- One call to the progress-update callback: a status message and a
progress fraction. -/
structure ProgressEvent where
  message : String
  fraction : Rat
  deriving DecidableEq, Repr

/-- The terminal progress event emitted by the `work` closure inside
`generate_layout_from_permalink`: fraction `1` with the success message when
`simplified_patcher.generate_layout` returns a layout, fraction `-1` with the
failure message when it raises `GenerationFailure`. -/
def work_terminal_event (result : Except GenerationFailure LayoutDescription) :
    ProgressEvent :=
  match result with
  | Except.ok layout =>
    { message := "Success! (Seed hash: " ++ layout.shareable_hash ++ ")", fraction := 1 }
  | Except.error e =>
    { message := "Generation Failure: " ++ e.message, fraction := -1 }

/-- The sequence of progress-update calls made by one run of the `work`
closure.  `inner` is the sequence of updates issued from inside the external
`simplified_patcher.generate_layout` call before it returns or raises; the
closure then issues exactly one terminal update and makes no further
progress-update call (persisting and opening the result do not report
progress). -/
def work_progress_trace (inner : List ProgressEvent)
    (result : Except GenerationFailure LayoutDescription) : List ProgressEvent :=
  inner ++ [work_terminal_event result]

/-! ### Preset registry and import_preset_file -/

/-- `PresetManager.preset_for_uuid`: look a preset up by UUID. -/
def preset_for_uuid (registry : List VersionedPreset) (u : Nat) :
    Option VersionedPreset :=
  registry.find? (fun p => p.uuid == u)

/-- Modelled from the spec: `PresetManager.add_new_preset` is not under src;
the spec describes `add(preset)` as "inserts or overwrites by UUID". -/
def add_preset (registry : List VersionedPreset) (p : VersionedPreset) :
    List VersionedPreset :=
  if registry.any (fun q => q.uuid == p.uuid) then
    registry.map (fun q => if q.uuid == p.uuid then p else q)
  else
    registry ++ [p]

/-- The widget state touched by preset import: the shared preset registry,
the per-game selected-preset option, and the tree selection. -/
structure GuiState where
  registry : List VersionedPreset
  selected_preset_uuid : Option Nat
  tree_selected_uuid : Option Nat
  deriving DecidableEq, Repr

/-- `GenerateGameWidget._add_new_preset`: records the preset as selected in
the options, adds it to the preset manager, and selects it in the tree. -/
def add_new_preset_state (st : GuiState) (p : VersionedPreset) : GuiState :=
  { registry := add_preset st.registry p,
    selected_preset_uuid := some p.uuid,
    tree_selected_uuid := some p.uuid }

/-- The user's answer to the "Preset ID conflict" overwrite dialog. -/
inductive UserResponse where
  | yes
  | no
  | cancel
  deriving DecidableEq, Repr

/-- `GenerateGameWidget.import_preset_file`.  `resp` is the answer the user
would give to the conflict dialog (only consulted when a preset with the same
UUID already exists) and `freshUuid` the value `uuid.uuid4()` would return.
An `InvalidPreset` from `get_preset()` shows an error box and returns before
any registry operation. -/
def import_preset_file (st : GuiState) (preset : VersionedPreset)
    (resp : UserResponse) (freshUuid : Nat) : GuiState :=
  match preset.data with
  | Except.error _ => st
  | Except.ok raw =>
    match preset_for_uuid st.registry preset.uuid with
    | none => add_new_preset_state st preset
    | some _ =>
      match resp with
      | UserResponse.cancel => st
      | UserResponse.no =>
        add_new_preset_state st
          (VersionedPreset.with_preset { raw with uuid := freshUuid })
      | UserResponse.yes => add_new_preset_state st preset

/-! ### persist_layout -/

/-- The file name built by `persist_layout`:
`f"\x7bdate_format\x7d_\x7bgames\x7d_\x7bdescription.shareable_word_hash\x7d.\x7bdescription.file_extension()\x7d"`
with `games = "-".join(sorted(game.short_name for game in description.all_games))`. -/
def persist_layout_file_name (date_format : String) (short_names : List String)
    (word_hash : String) (ext : String) : String :=
  date_format ++ "_" ++ String.intercalate "-" short_names.mergeSort
    ++ "_" ++ word_hash ++ "." ++ ext

/-- Modelled from the spec: `LayoutDescription.save_to_file` is not under src;
the spec says the core "only writes new files, never mutates existing ones",
so saving appends a new (path, contents) entry to the history directory. -/
def save_to_file (history : List (String × String)) (path : String)
    (contents : String) : List (String × String) :=
  history ++ [(path, contents)]

/-- `persist_layout(history_dir, description)`: builds the deterministic file
name and saves the description there.  `history` is the contents of the
history directory and `date_format` the formatted current timestamp. -/
def persist_layout (history : List (String × String)) (date_format : String)
    (description : LayoutDescription) : List (String × String) :=
  save_to_file history
    (persist_layout_file_name date_format description.all_games_short_names
      description.shareable_word_hash description.file_ext)
    description.serialized

/-! ### CorruptionConfiguration -/

/-- Placeholder for the nested `TeleporterConfiguration` field. -/
structure TeleporterConfiguration where
  tag : Nat
  deriving DecidableEq, Repr

/-- Placeholder for the `LayoutLogicalResourceAction` enumeration field. -/
structure LayoutLogicalResourceAction where
  tag : Nat
  deriving DecidableEq, Repr

/-- Declared metadata of `CorruptionConfiguration.energy_per_tank`: `min`. -/
def energy_per_tank_min : Int := 1

/-- Declared metadata of `CorruptionConfiguration.energy_per_tank`: `max`. -/
def energy_per_tank_max : Int := 1000

/-- Declared metadata of `CorruptionConfiguration.energy_per_tank`:
`precision` (step 1: the field is integer-valued). -/
def energy_per_tank_precision : Int := 1

/-- The frozen dataclass `CorruptionConfiguration`. -/
structure CorruptionConfiguration where
  elevators : TeleporterConfiguration
  energy_per_tank : Int
  logical_resource_action : LayoutLogicalResourceAction
  start_with_corrupted_hypermode : Bool
  deriving DecidableEq, Repr

/-- A configuration-field validation failure, naming the offending field. -/
structure ValidationError where
  field_name : String
  deriving DecidableEq, Repr

/-- Modelled from the spec: `BaseConfiguration` construction/load validation
is not under src; the spec says "every field value lies within its declared
domain; validation occurs at construction/load, never silently clamped".  The
domain of `energy_per_tank` is the declared metadata `min 1, max 1000,
precision 1` from the dataclass field. -/
def mk_corruption_configuration (elevators : TeleporterConfiguration)
    (energy : Int) (lra : LayoutLogicalResourceAction) (hypermode : Bool) :
    Except ValidationError CorruptionConfiguration :=
  if energy_per_tank_min ≤ energy ∧ energy ≤ energy_per_tank_max then
    Except.ok
      { elevators := elevators, energy_per_tank := energy,
        logical_resource_action := lra,
        start_with_corrupted_hypermode := hypermode }
  else
    Except.error { field_name := "energy_per_tank" }

/-! ### Permalink codec

`Permalink.from_parameters` / `Permalink.from_str` live outside src; the
whole codec below is modelled from the spec: a versioned token encoding
`GeneratorParameters`, with `decode(encode(p)) == p` for valid `p` and a
distinct unsupported-version error on version mismatch. -/

/-- Length-prefixed encoding of a string as character code points. -/
def encode_string (s : String) : List Nat :=
  s.data.length :: s.data.map Char.toNat

/-- Decoder matching `encode_string`; returns the string and the remaining
token tail, or `none` when the token is truncated. -/
def decode_string (l : List Nat) : Option (String × List Nat) :=
  match l with
  | [] => none
  | n :: rest =>
    if n ≤ rest.length then
      some (String.mk ((rest.take n).map Char.ofNat), rest.drop n)
    else none

/-- Encoding of an optional number (used for `base_preset_uuid`). -/
def encode_opt_nat : Option Nat → List Nat
  | none => [0]
  | some n => [1, n]

/-- Decoder matching `encode_opt_nat`. -/
def decode_opt_nat : List Nat → Option (Option Nat × List Nat)
  | 0 :: rest => some (none, rest)
  | 1 :: n :: rest => some (some n, rest)
  | _ => none

/-- Modelled from the spec: serialized form of one per-player configuration
inside the permalink payload. -/
def encode_preset (p : Preset) : List Nat :=
  encode_string p.name ++ (encode_string p.description
    ++ (p.uuid :: encode_opt_nat p.base_preset_uuid))

/-- Decoder matching `encode_preset`. -/
def decode_preset (l : List Nat) : Option (Preset × List Nat) :=
  match decode_string l with
  | none => none
  | some (name, l1) =>
    match decode_string l1 with
    | none => none
    | some (descr, l2) =>
      match l2 with
      | [] => none
      | u :: l3 =>
        match decode_opt_nat l3 with
        | none => none
        | some (b, l4) =>
          some ({ name := name, description := descr, uuid := u,
                  base_preset_uuid := b }, l4)

/-- Concatenated encoding of the per-player preset list. -/
def encode_presets : List Preset → List Nat
  | [] => []
  | p :: ps => encode_preset p ++ encode_presets ps

/-- Decoder matching `encode_presets`, driven by the declared player count. -/
def decode_presets : Nat → List Nat → Option (List Preset × List Nat)
  | 0, l => some ([], l)
  | n + 1, l =>
    match decode_preset l with
    | none => none
    | some (p, l1) =>
      match decode_presets n l1 with
      | none => none
      | some (ps, l2) => some (p :: ps, l2)

/-- The current permalink format version. -/
def permalink_version : Nat := 1

/-- Decoding failures: a version-mismatched token is reported as
`unsupported_version` (carrying the version found), anything else that does
not parse as `malformed`. -/
inductive PermalinkError where
  | unsupported_version (found : Nat)
  | malformed
  deriving DecidableEq, Repr

/-- A valid generation request: the seed lies in the fixed-width domain
`[0, 2^31)` (validated before encoding) and there is at least one player. -/
def generator_parameters_valid (p : GeneratorParameters) : Prop :=
  p.seed_number < 2 ^ 31 ∧ 1 ≤ p.presets.length

instance (p : GeneratorParameters) : Decidable (generator_parameters_valid p) :=
  inferInstanceAs (Decidable (_ ∧ _))

/-- Modelled from the spec: `Permalink.from_parameters(...).as_base64_str`,
a versioned token deterministically encoding the parameters. -/
def permalink_encode (p : GeneratorParameters) : List Nat :=
  permalink_version :: p.seed_number :: (if p.spoiler then 1 else 0)
    :: p.presets.length :: encode_presets p.presets

/-- Modelled from the spec: `Permalink.from_str`, rejecting a token whose
version field differs from `permalink_version` with an unsupported-version
error before reading any payload, and rejecting unparsable payloads as
malformed. -/
def permalink_decode (t : List Nat) : Except PermalinkError GeneratorParameters :=
  match t with
  | [] => Except.error PermalinkError.malformed
  | v :: rest =>
    if v = permalink_version then
      match rest with
      | seed :: sp :: n :: payload =>
        if sp ≤ 1 then
          match decode_presets n payload with
          | some (ps, []) =>
            Except.ok { seed_number := seed, spoiler := sp == 1, presets := ps }
          | _ => Except.error PermalinkError.malformed
        else Except.error PermalinkError.malformed
      | _ => Except.error PermalinkError.malformed
    else Except.error (PermalinkError.unsupported_version v)

/-! ## Theorems -/

/-- C1: the claim says every seed placed into `GeneratorParameters` by
`generate_new_layout` lies in `[0, 2^31)`.  The code calls
`random.randint(0, 2 ** 31)`, whose upper endpoint is INCLUSIVE in Python, so
the seed `2^31` is a possible draw and is then stored unchanged in the
parameters, yet `2^31 < 2^31` is false: the code can violate the declared
fixed-width domain. -/
theorem generate_new_layout_seed_can_escape_domain :
    generate_new_layout_seed_possible (2 ^ 31) ∧
    (generate_new_layout_params (2 ^ 31) true preset0 1).seed_number = 2 ^ 31 ∧
    ¬ (generate_new_layout_params (2 ^ 31) true preset0 1).seed_number < 2 ^ 31 := by
  refine ⟨⟨Nat.zero_le _, Nat.le_refl _⟩, rfl, ?_⟩
  intro h
  exact Nat.lt_irrefl _ h

/-- C7: the `GeneratorParameters` built by `generate_new_layout` has exactly
`num_players` presets (`[preset.get_preset()] * num_players`), and the player
count read from the spin box is at least 1. -/
theorem generate_new_layout_presets_length (seed : Nat) (spoiler : Bool)
    (preset : Preset) (n : Nat) (h : num_players_spin_box_value_possible n) :
    (generate_new_layout_params seed spoiler preset n).presets.length = n ∧
    1 ≤ n := by
  refine ⟨?_, h⟩
  simp [generate_new_layout_params]

/-- Witness for C7 at a concrete player count. -/
theorem generate_new_layout_presets_length_witness :
    (generate_new_layout_params 42 true preset0 2).presets.length = 2 ∧ 1 ≤ 2 :=
  generate_new_layout_presets_length 42 true preset0 2 (by decide)

/-- C3: the trace of progress updates issued by one run of the `work`
closure ends with exactly one terminal update, which is the last update of
the run; its fraction is exactly `1` on success and the negative sentinel
`-1` on `GenerationFailure`. -/
theorem work_progress_trace_terminal_spec (inner : List ProgressEvent)
    (layout : LayoutDescription) (e : GenerationFailure) :
    work_progress_trace inner (Except.ok layout)
      = inner ++ [work_terminal_event (Except.ok layout)] ∧
    (work_terminal_event (Except.ok layout)).fraction = 1 ∧
    (work_progress_trace inner (Except.ok layout)).getLast?
      = some (work_terminal_event (Except.ok layout)) ∧
    work_progress_trace inner (Except.error e)
      = inner ++ [work_terminal_event (Except.error e)] ∧
    (work_terminal_event (Except.error e)).fraction = -1 ∧
    (work_terminal_event (Except.error e)).fraction < 0 ∧
    (work_progress_trace inner (Except.error e)).getLast?
      = some (work_terminal_event (Except.error e)) := by
  refine ⟨rfl, rfl, ?_, rfl, rfl, by norm_num [work_terminal_event], ?_⟩ <;>
    simp [work_progress_trace]

/-- C4: when `get_preset()` raises `InvalidPreset`, `import_preset_file`
reports the error and returns before any registry operation: the registry,
the selected-preset option and the tree selection are all unchanged. -/
theorem import_preset_file_invalid_preset_unchanged (st : GuiState)
    (preset : VersionedPreset) (resp : UserResponse) (fresh : Nat)
    (e : InvalidPreset) (h : preset.data = Except.error e) :
    import_preset_file st preset resp fresh = st := by
  unfold import_preset_file
  rw [h]

/-- Witness for C4: importing a concrete invalid preset leaves a concrete
state unchanged. -/
theorem import_preset_file_invalid_preset_unchanged_witness :
    import_preset_file
      { registry := [VersionedPreset.with_preset preset0],
        selected_preset_uuid := some 7, tree_selected_uuid := none }
      { uuid := 3, name := "Broken", base_preset_uuid := none,
        data := Except.error { original_exception := "bad field" } }
      UserResponse.yes 99
      = { registry := [VersionedPreset.with_preset preset0],
          selected_preset_uuid := some 7, tree_selected_uuid := none } :=
  import_preset_file_invalid_preset_unchanged _ _ UserResponse.yes 99
    { original_exception := "bad field" } rfl

/-- C6: after `PresetMenu.set_preset`, the delete and export actions are
enabled exactly when a preset is present with a non-null `base_preset_uuid`;
a root/built-in preset (null `base_preset_uuid`), or no preset at all, leaves
them disabled. -/
theorem set_preset_delete_export_gating (m : PresetMenuState)
    (q : VersionedPreset) :
    (set_preset m none).action_delete_enabled = false ∧
    (set_preset m none).action_export_enabled = false ∧
    (q.base_preset_uuid = none →
      (set_preset m (some q)).action_delete_enabled = false ∧
      (set_preset m (some q)).action_export_enabled = false) ∧
    (q.base_preset_uuid ≠ none →
      (set_preset m (some q)).action_delete_enabled = true ∧
      (set_preset m (some q)).action_export_enabled = true) := by
  refine ⟨rfl, rfl, ?_, ?_⟩ <;> intro h <;>
    cases hb : q.base_preset_uuid <;>
      simp_all [set_preset, fork_actions_enabled]

/-- Witness for C6: gating evaluated on a concrete forked preset and a
concrete root preset. -/
theorem set_preset_delete_export_gating_witness :
    (set_preset
      { action_delete_enabled := false, action_history_enabled := false,
        action_export_enabled := false, action_customize_enabled := false,
        action_duplicate_enabled := false, action_map_tracker_enabled := false,
        action_required_tricks_enabled := false, preset := none }
      (some { uuid := 4, name := "Fork", base_preset_uuid := some 7,
              data := Except.ok preset0 })).action_delete_enabled = true ∧
    (set_preset
      { action_delete_enabled := true, action_history_enabled := true,
        action_export_enabled := true, action_customize_enabled := true,
        action_duplicate_enabled := true, action_map_tracker_enabled := true,
        action_required_tricks_enabled := true, preset := none }
      (some { uuid := 7, name := "Root", base_preset_uuid := none,
              data := Except.ok preset0 })).action_export_enabled = false := by
  constructor
  · exact (set_preset_delete_export_gating
      { action_delete_enabled := false, action_history_enabled := false,
        action_export_enabled := false, action_customize_enabled := false,
        action_duplicate_enabled := false, action_map_tracker_enabled := false,
        action_required_tricks_enabled := false, preset := none }
      { uuid := 4, name := "Fork", base_preset_uuid := some 7,
        data := Except.ok preset0 }).2.2.2 (by decide) |>.1
  · exact (set_preset_delete_export_gating
      { action_delete_enabled := true, action_history_enabled := true,
        action_export_enabled := true, action_customize_enabled := true,
        action_duplicate_enabled := true, action_map_tracker_enabled := true,
        action_required_tricks_enabled := true, preset := none }
      { uuid := 7, name := "Root", base_preset_uuid := none,
        data := Except.ok preset0 }).2.2.1 rfl |>.2

/-- C10: `on_preset_changed` enables both generate buttons exactly when a
preset is present and `get_preset()` succeeds; with no preset it shows the
selection prompt, and with an invalid preset it disables generation and shows
a message embedding the original exception. -/
theorem on_preset_changed_generate_gating (d : Preset → String)
    (q : VersionedPreset) (raw : Preset) (e : InvalidPreset) :
    (on_preset_changed d none).create_generate_button_enabled = false ∧
    (on_preset_changed d none).create_generate_race_button_enabled = false ∧
    (on_preset_changed d none).create_preset_description
      = "Please select a preset from the list." ∧
    (q.data = Except.ok raw →
      (on_preset_changed d (some q)).create_generate_button_enabled = true ∧
      (on_preset_changed d (some q)).create_generate_race_button_enabled = true) ∧
    (q.data = Except.error e →
      (on_preset_changed d (some q)).create_generate_button_enabled = false ∧
      (on_preset_changed d (some q)).create_generate_race_button_enabled = false ∧
      (on_preset_changed d (some q)).create_preset_description
        = "Preset " ++ q.name
          ++ " can\x27t be used as it contains the following error:\n"
          ++ e.original_exception
          ++ "\n\nPlease open edit the preset file with id " ++ toString q.uuid
          ++ " manually or delete this preset.") := by
  refine ⟨rfl, rfl, rfl, ?_, ?_⟩ <;> intro h <;>
    simp_all [on_preset_changed]

/-- Witness for C10: the gating evaluated on a concrete valid preset and a
concrete invalid preset. -/
theorem on_preset_changed_generate_gating_witness :
    (on_preset_changed (fun _ => "") (some
      { uuid := 7, name := "Good", base_preset_uuid := none,
        data := Except.ok preset0 })).create_generate_button_enabled = true ∧
    (on_preset_changed (fun _ => "") (some
      { uuid := 8, name := "Bad", base_preset_uuid := none,
        data := Except.error
          { original_exception := "oops" } })).create_generate_button_enabled
      = false := by
  constructor
  · exact (on_preset_changed_generate_gating (fun _ => "")
      { uuid := 7, name := "Good", base_preset_uuid := none,
        data := Except.ok preset0 } preset0
      { original_exception := "oops" }).2.2.2.1 rfl |>.1
  · exact (on_preset_changed_generate_gating (fun _ => "")
      { uuid := 8, name := "Bad", base_preset_uuid := none,
        data := Except.error { original_exception := "oops" } } preset0
      { original_exception := "oops" }).2.2.2.2 rfl |>.1

/-- C5: when the imported preset's UUID already exists, `import_preset_file`
consults the user: Cancel leaves the whole state unchanged; No installs the
imported preset under the freshly generated UUID, appending it while keeping
the existing preset in place; only an explicit Yes overwrites, going through
`_add_new_preset` with the imported preset itself. -/
theorem import_preset_file_uuid_conflict (st : GuiState)
    (preset : VersionedPreset) (raw : Preset) (existing : VersionedPreset)
    (fresh : Nat)
    (h1 : preset.data = Except.ok raw)
    (h2 : preset_for_uuid st.registry preset.uuid = some existing)
    (h3 : ∀ q ∈ st.registry, q.uuid ≠ fresh) :
    import_preset_file st preset UserResponse.cancel fresh = st ∧
    (VersionedPreset.with_preset { raw with uuid := fresh }).uuid = fresh ∧
    (import_preset_file st preset UserResponse.no fresh).registry
      = st.registry ++ [VersionedPreset.with_preset { raw with uuid := fresh }] ∧
    existing ∈ (import_preset_file st preset UserResponse.no fresh).registry ∧
    import_preset_file st preset UserResponse.yes fresh
      = add_new_preset_state st preset := by
  have hmem : existing ∈ st.registry := List.mem_of_find?_eq_some h2
  have hany : (st.registry.any
      (fun q => q.uuid == (VersionedPreset.with_preset { raw with uuid := fresh }).uuid)) = false := by
    rw [List.any_eq_false]
    intro q hq
    simpa [VersionedPreset.with_preset] using h3 q hq
  have hreg : (import_preset_file st preset UserResponse.no fresh).registry
      = st.registry ++ [VersionedPreset.with_preset { raw with uuid := fresh }] := by
    unfold import_preset_file
    rw [h1, h2]
    simp only [add_new_preset_state, add_preset, hany]
    rw [if_neg]
    simp [hany]
  refine ⟨?_, rfl, hreg, ?_, ?_⟩
  · unfold import_preset_file
    rw [h1, h2]
  · rw [hreg]
    exact List.mem_append_left _ hmem
  · unfold import_preset_file
    rw [h1, h2]

/-- Witness for C5 on a concrete one-preset registry with a colliding
import. -/
theorem import_preset_file_uuid_conflict_witness :
    import_preset_file
      { registry := [VersionedPreset.with_preset preset0],
        selected_preset_uuid := some 7, tree_selected_uuid := some 7 }
      (VersionedPreset.with_preset
        { name := "Incoming", description := "New.", uuid := 7,
          base_preset_uuid := some 2 })
      UserResponse.cancel 9
      = { registry := [VersionedPreset.with_preset preset0],
          selected_preset_uuid := some 7, tree_selected_uuid := some 7 } ∧
    (VersionedPreset.with_preset
      { name := "Incoming", description := "New.", uuid := 9,
        base_preset_uuid := some 2 }).uuid = 9 ∧
    (import_preset_file
      { registry := [VersionedPreset.with_preset preset0],
        selected_preset_uuid := some 7, tree_selected_uuid := some 7 }
      (VersionedPreset.with_preset
        { name := "Incoming", description := "New.", uuid := 7,
          base_preset_uuid := some 2 })
      UserResponse.no 9).registry
      = [VersionedPreset.with_preset preset0]
        ++ [VersionedPreset.with_preset
          { name := "Incoming", description := "New.", uuid := 9,
            base_preset_uuid := some 2 }] ∧
    VersionedPreset.with_preset preset0 ∈ (import_preset_file
      { registry := [VersionedPreset.with_preset preset0],
        selected_preset_uuid := some 7, tree_selected_uuid := some 7 }
      (VersionedPreset.with_preset
        { name := "Incoming", description := "New.", uuid := 7,
          base_preset_uuid := some 2 })
      UserResponse.no 9).registry ∧
    import_preset_file
      { registry := [VersionedPreset.with_preset preset0],
        selected_preset_uuid := some 7, tree_selected_uuid := some 7 }
      (VersionedPreset.with_preset
        { name := "Incoming", description := "New.", uuid := 7,
          base_preset_uuid := some 2 })
      UserResponse.yes 9
      = add_new_preset_state
        { registry := [VersionedPreset.with_preset preset0],
          selected_preset_uuid := some 7, tree_selected_uuid := some 7 }
        (VersionedPreset.with_preset
          { name := "Incoming", description := "New.", uuid := 7,
            base_preset_uuid := some 2 }) := by
  have h := import_preset_file_uuid_conflict
    { registry := [VersionedPreset.with_preset preset0],
      selected_preset_uuid := some 7, tree_selected_uuid := some 7 }
    (VersionedPreset.with_preset
      { name := "Incoming", description := "New.", uuid := 7,
        base_preset_uuid := some 2 })
    { name := "Incoming", description := "New.", uuid := 7,
      base_preset_uuid := some 2 }
    (VersionedPreset.with_preset preset0) 9 rfl (by decide) (by decide)
  exact h

/-- C8: `persist_layout` writes exactly one new entry into the history
directory, at the name built from the timestamp, the hyphen-joined sorted
game short names, the shareable word hash and the declared file extension;
all pre-existing files survive with their contents untouched, and the name is
invariant under reordering of the game list (it only depends on the sorted
names). -/
theorem persist_layout_spec (history : List (String × String))
    (date_format : String) (description : LayoutDescription)
    (names2 : List String)
    (hperm : description.all_games_short_names.Perm names2) :
    persist_layout history date_format description
      = history ++ [(persist_layout_file_name date_format
          description.all_games_short_names description.shareable_word_hash
          description.file_ext, description.serialized)] ∧
    history.Sublist (persist_layout history date_format description) ∧
    List.Sorted (fun a b : String => a ≤ b)
      description.all_games_short_names.mergeSort ∧
    persist_layout_file_name date_format description.all_games_short_names
        description.shareable_word_hash description.file_ext
      = persist_layout_file_name date_format names2
          description.shareable_word_hash description.file_ext := by
  have hsorted := List.sorted_mergeSort' (α := String)
    description.all_games_short_names
  have hms : description.all_games_short_names.mergeSort = names2.mergeSort :=
    List.eq_of_perm_of_sorted
      (((List.mergeSort_perm _ _).trans hperm).trans
        (List.mergeSort_perm _ _).symm)
      (List.sorted_mergeSort' _) (List.sorted_mergeSort' _)
  refine ⟨rfl, ?_, hsorted, ?_⟩
  · exact List.sublist_append_left _ _
  · unfold persist_layout_file_name
    rw [hms]

/-- Witness for C8: persisting a concrete layout into a concrete history,
with a reordered game list. -/
theorem persist_layout_spec_witness :
    persist_layout [("old.json", "old")] "2024-01-02-03-04-05"
      { shareable_hash := "h", shareable_word_hash := "Word Hash",
        all_games_short_names := ["Prime", "Echoes"], file_ext := "rdvgame",
        serialized := "layout" }
      = [("old.json", "old")]
        ++ [(persist_layout_file_name "2024-01-02-03-04-05"
            ["Prime", "Echoes"] "Word Hash" "rdvgame", "layout")] ∧
    [("old.json", "old")].Sublist
      (persist_layout [("old.json", "old")] "2024-01-02-03-04-05"
        { shareable_hash := "h", shareable_word_hash := "Word Hash",
          all_games_short_names := ["Prime", "Echoes"], file_ext := "rdvgame",
          serialized := "layout" }) ∧
    List.Sorted (fun a b : String => a ≤ b)
      (["Prime", "Echoes"] : List String).mergeSort ∧
    persist_layout_file_name "2024-01-02-03-04-05" ["Prime", "Echoes"]
        "Word Hash" "rdvgame"
      = persist_layout_file_name "2024-01-02-03-04-05" ["Echoes", "Prime"]
          "Word Hash" "rdvgame" := by
  have h := persist_layout_spec [("old.json", "old")] "2024-01-02-03-04-05"
    { shareable_hash := "h", shareable_word_hash := "Word Hash",
      all_games_short_names := ["Prime", "Echoes"], file_ext := "rdvgame",
      serialized := "layout" }
    ["Echoes", "Prime"] (by decide)
  exact h

/-- C9: a `CorruptionConfiguration` obtained from validated construction/load
has `energy_per_tank` inside the declared domain `[1, 1000]` and exactly
equal to the supplied value (never clamped); an out-of-domain value is
rejected with a `ValidationError` naming the field. -/
theorem corruption_configuration_energy_per_tank_domain
    (elevators : TeleporterConfiguration) (energy : Int)
    (lra : LayoutLogicalResourceAction) (hypermode : Bool)
    (cfg : CorruptionConfiguration) :
    (mk_corruption_configuration elevators energy lra hypermode
        = Except.ok cfg →
      energy_per_tank_min ≤ cfg.energy_per_tank ∧
      cfg.energy_per_tank ≤ energy_per_tank_max ∧
      cfg.energy_per_tank = energy) ∧
    (¬ (energy_per_tank_min ≤ energy ∧ energy ≤ energy_per_tank_max) →
      mk_corruption_configuration elevators energy lra hypermode
        = Except.error { field_name := "energy_per_tank" }) := by
  constructor
  · intro hok
    unfold mk_corruption_configuration at hok
    by_cases hdom : energy_per_tank_min ≤ energy ∧ energy ≤ energy_per_tank_max
    · rw [if_pos hdom] at hok
      cases hok
      exact ⟨hdom.1, hdom.2, rfl⟩
    · rw [if_neg hdom] at hok
      cases hok
  · intro hdom
    unfold mk_corruption_configuration
    rw [if_neg hdom]

/-- Witness for C9: an in-domain value is accepted unchanged and an
out-of-domain value is rejected. -/
theorem corruption_configuration_energy_per_tank_domain_witness :
    (energy_per_tank_min
        ≤ (({ elevators := { tag := 0 }, energy_per_tank := 99,
              logical_resource_action := { tag := 0 },
              start_with_corrupted_hypermode := false } :
            CorruptionConfiguration)).energy_per_tank ∧
      (({ elevators := { tag := 0 }, energy_per_tank := 99,
          logical_resource_action := { tag := 0 },
          start_with_corrupted_hypermode := false } :
        CorruptionConfiguration)).energy_per_tank ≤ energy_per_tank_max ∧
      (({ elevators := { tag := 0 }, energy_per_tank := 99,
          logical_resource_action := { tag := 0 },
          start_with_corrupted_hypermode := false } :
        CorruptionConfiguration)).energy_per_tank = 99) ∧
    mk_corruption_configuration { tag := 0 } 1001 { tag := 0 } false
      = Except.error { field_name := "energy_per_tank" } := by
  constructor
  · exact (corruption_configuration_energy_per_tank_domain { tag := 0 } 99
      { tag := 0 } false
      { elevators := { tag := 0 }, energy_per_tank := 99,
        logical_resource_action := { tag := 0 },
        start_with_corrupted_hypermode := false }).1 (by decide)
  · exact (corruption_configuration_energy_per_tank_domain { tag := 0 } 1001
      { tag := 0 } false
      { elevators := { tag := 0 }, energy_per_tank := 1001,
        logical_resource_action := { tag := 0 },
        start_with_corrupted_hypermode := false }).2 (by decide)

/-- Decoding a length-prefixed string consumes exactly its encoding and
returns the remaining tail. -/
theorem decode_encode_string (s : String) (r : List Nat) :
    decode_string (encode_string s ++ r) = some (s, r) := by
  have hlen : s.data.length ≤ (s.data.map Char.toNat ++ r).length := by
    simp
  have hmaplen : (s.data.map Char.toNat).length = s.data.length := by
    simp
  have htake : (s.data.map Char.toNat ++ r).take s.data.length
      = s.data.map Char.toNat := by
    rw [← hmaplen, List.take_left]
  have hdrop : (s.data.map Char.toNat ++ r).drop s.data.length = r := by
    rw [← hmaplen, List.drop_left]
  simp only [encode_string, List.cons_append, decode_string]
  rw [if_pos hlen, htake, hdrop]
  have hchars : (s.data.map Char.toNat).map Char.ofNat = s.data := by
    rw [List.map_map]
    have hcomp : (Char.ofNat ∘ Char.toNat) = id := funext fun c => Char.ofNat_toNat c
    rw [hcomp, List.map_id]
  rw [hchars]

/-- Decoding an optional number consumes exactly its encoding. -/
theorem decode_encode_opt_nat (o : Option Nat) (r : List Nat) :
    decode_opt_nat (encode_opt_nat o ++ r) = some (o, r) := by
  cases o <;> rfl

/-- Decoding a serialized preset consumes exactly its encoding. -/
theorem decode_encode_preset (p : Preset) (r : List Nat) :
    decode_preset (encode_preset p ++ r) = some (p, r) := by
  have h : encode_preset p ++ r
      = encode_string p.name ++ (encode_string p.description
        ++ (p.uuid :: (encode_opt_nat p.base_preset_uuid ++ r))) := by
    simp [encode_preset]
  rw [h]
  simp only [decode_preset, decode_encode_string, decode_encode_opt_nat,
    List.cons_append]

/-- Decoding a serialized preset list, driven by its length, consumes
exactly its encoding. -/
theorem decode_encode_presets (ps : List Preset) (r : List Nat) :
    decode_presets ps.length (encode_presets ps ++ r) = some (ps, r) := by
  induction ps generalizing r with
  | nil => rfl
  | cons p ps ih =>
    simp only [List.length_cons, encode_presets, List.append_assoc]
    simp only [decode_presets, decode_encode_preset, ih]

/-- C2: decoding the permalink encoding of any valid `GeneratorParameters`
yields the parameters back, and a token carrying any other version number is
rejected with the distinct unsupported-version error (carrying the version
found) rather than being parsed. -/
theorem permalink_round_trip (p : GeneratorParameters)
    (_hvalid : generator_parameters_valid p)
    (v : Nat) (rest : List Nat) (hv : v ≠ permalink_version) :
    permalink_decode (permalink_encode p) = Except.ok p ∧
    permalink_decode (v :: rest)
      = Except.error (PermalinkError.unsupported_version v) := by
  constructor
  · have hps := decode_encode_presets p.presets []
    rw [List.append_nil] at hps
    have hsp : (if p.spoiler then 1 else 0) ≤ 1 := by
      cases p.spoiler <;> simp
    have hbit : (((if p.spoiler then 1 else 0 : Nat)) == 1) = p.spoiler := by
      cases p.spoiler <;> rfl
    simp only [permalink_encode, permalink_decode, hps]
    rw [if_pos hsp]
    simp only [hbit]
    simp
  · simp only [permalink_decode]
    rw [if_neg hv]

/-- A concrete valid generation request used by the C2 witness. -/
def paramsW : GeneratorParameters :=
  { seed_number := 42, spoiler := true, presets := [preset0] }

/-- Witness for C2: the round trip and the version rejection evaluated on a
concrete request and a concrete foreign-version token. -/
theorem permalink_round_trip_witness :
    permalink_decode (permalink_encode paramsW) = Except.ok paramsW ∧
    permalink_decode (0 :: [5])
      = Except.error (PermalinkError.unsupported_version 0) :=
  permalink_round_trip paramsW (by decide) 0 [5] (by decide)

end Randovania
